import Mathlib

set_option maxRecDepth 20000

/-!
Shallow embedding of `src/json_to_html_converter.py` (the whole repository is
this one file).  Python dictionaries (JSON objects) are embedded as association
lists in insertion order; JSON scalar values as the inductive `Value`;
`str(value)` as `pyStr`.  Single-character `str.replace` calls are embedded
character-wise by `replaceChar`, `str.strip()` by `pyStrip` over the ASCII
whitespace characters Python strips, and f-string interpolation by string
concatenation.  The static chunks of the HTML template of
`generate_html_template` are reproduced verbatim as `tpl1`–`tpl6` (with the piece after
the title split once more into `tpl2a`/`tpl2b`; braces and
apostrophes written as `\x7b`, `\x7d`, `\x27` escapes).
-/

namespace JsonToHtml

/-- A JSON scalar value as produced by `json.load` for the property values the
spec's data model admits (string, number, boolean); numbers are embedded as
integers. -/
inductive Value where
  | str (s : String)
  | int (n : Int)
  | bool (b : Bool)
deriving DecidableEq

/-- Python `str(value)` on a `Value` (`str` of a string is itself, integers
print in decimal, booleans print as `True` / `False`). -/
def pyStr : Value → String
  | .str s => s
  | .int n => toString n
  | .bool b => if b then "True" else "False"

/-- A JSON object of scalar properties: insertion-ordered association list. -/
abbrev PropMap := List (String × Value)

/-- The decoded input record: category name ↦ property mapping. -/
abbrev Record := List (String × PropMap)

/-- `category in data and key in data[category]` probing, returning the value. -/
def pathLookup (data : Record) (category key : String) : Option Value :=
  (data.lookup category).bind (fun props => props.lookup key)

/-- Python `s.replace(old, new)` for a single-character `old`, character-wise. -/
def replaceChar (old : Char) (new : List Char) : List Char → List Char
  | [] => []
  | c :: cs => (if c = old then new else [c]) ++ replaceChar old new cs

/-- The ASCII whitespace characters removed by Python `str.strip()`. -/
def pyIsSpace (c : Char) : Bool :=
  c == ' ' || c == '\t' || c == '\n' || c == '\r' || c == '\x0b' || c == '\x0c'

/-- Python `str.strip()` on a character list. -/
def pyStripL (l : List Char) : List Char :=
  ((l.dropWhile pyIsSpace).reverse.dropWhile pyIsSpace).reverse

/-- Python `str.strip()`. -/
def pyStrip (s : String) : String := ⟨pyStripL s.data⟩

/-- Lines 125–127: `value.replace('&','&amp;').replace('<','&lt;').replace('>','&gt;')`,
applied in that order. -/
def escapeHtml (s : String) : String :=
  ⟨replaceChar '>' "&gt;".data (replaceChar '<' "&lt;".data (replaceChar '&' "&amp;".data s.data))⟩

/-- Modelled from the spec: the single-pass escape of one character — `&`, `<`
and `>` are replaced by their entities, every other character is kept.  Used to
state that the sequential replacements escape each metacharacter exactly once. -/
def escChar (c : Char) : List Char :=
  if c = '&' then "&amp;".data
  else if c = '<' then "&lt;".data
  else if c = '>' then "&gt;".data
  else [c]

/-- Modelled from the spec: escape every HTML metacharacter of the input
exactly once, in a single pass. -/
def escapeOnce (s : String) : String := ⟨(s.data.map escChar).flatten⟩

/-- Lines 117–129, `format_property_value(value, category, key)`. -/
def format_property_value (value : Value) (category : String) (key : String) : String :=
  if category = "Services" then
    if value = Value.str "Running" then
      "<span class=\"status-running\">✅ " ++ pyStr value ++ "</span>"
    else
      "<span class=\"status-stopped\">❌ " ++ pyStr value ++ "</span>"
  else
    match value with
    | Value.str s => escapeHtml s
    | v => pyStr v

/-- Lines 197–200: `key.replace('1','').replace('2','').replace('3','')
.replace('4','').replace('5','').replace('_',' ').strip()`. -/
def clean_key (key : String) : String :=
  pyStrip ⟨replaceChar '_' [' ']
    (replaceChar '5' [] (replaceChar '4' [] (replaceChar '3' []
      (replaceChar '2' [] (replaceChar '1' [] key.data)))))⟩

/-- Modelled from the spec: remove every occurrence of the characters
`'1'`–`'5'`, replace each underscore with a space, trim surrounding
whitespace — in one pass each. -/
def clean_key_spec (key : String) : String :=
  pyStrip ⟨(key.data.filter
      (fun c => !(c == '1' || c == '2' || c == '3' || c == '4' || c == '5'))).map
    (fun c => if c = '_' then ' ' else c)⟩

/-- Modelled from the spec (§3): derive the display key by stripping trailing
digit characters and underscores from the property key. -/
def strip_trailing_spec (key : String) : String :=
  ⟨(key.data.reverse.dropWhile (fun c => c.isDigit || c == '_')).reverse⟩

/-- Line 149: `data['CPU']['Processor1'].split('(')[0].strip()`. -/
def cpu_clean (s : String) : String :=
  pyStrip ⟨s.data.takeWhile (fun c => c != '(')⟩

/-- One `<div class="summary-item">…` item string of `generate_summary_section`. -/
def summaryItem (label value : String) : String :=
  "<div class=\"summary-item\"><h4>" ++ label ++ "</h4><div class=\"value\">" ++
    value ++ "</div></div>"

/-- Lines 131–158, the `summary_items` list built by `generate_summary_section`.
All five probes run inside a single `try`/bare `except`; the only operation in
them that can raise on a record of scalar-valued property maps is
`data['CPU']['Processor1'].split('(')` when that value is not a string
(`AttributeError`), in which case the items appended so far are kept and the
remaining probes (the `Services` one) are skipped. -/
def summary_items (data : Record) : List String :=
  let sysItems : List String :=
    match data.lookup "System" with
    | some sys =>
      (match sys.lookup "ComputerName" with
       | some v => [summaryItem "Computer" (pyStr v)]
       | none => []) ++
      (match sys.lookup "OSVersion" with
       | some v => [summaryItem "Operating System" (pyStr v)]
       | none => [])
    | none => []
  let memItems : List String :=
    match data.lookup "Memory" with
    | some mem =>
      match mem.lookup "TotalRAM" with
      | some v => [summaryItem "Total RAM" (pyStr v)]
      | none => []
    | none => []
  let svcItems : List String :=
    match data.lookup "Services" with
    | some svcs =>
      [summaryItem "Services Status"
        (toString (svcs.countP (fun p => decide (p.2 = Value.str "Running"))) ++ "/" ++
          toString svcs.length ++ " Running")]
    | none => []
  match data.lookup "CPU" with
  | some cpu =>
    match cpu.lookup "Processor1" with
    | some (Value.str s) =>
        sysItems ++ memItems ++ [summaryItem "Processor" (cpu_clean s)] ++ svcItems
    | some _ => sysItems ++ memItems
    | none => sysItems ++ memItems ++ svcItems
  | none => sysItems ++ memItems ++ svcItems

/-- Lines 160–168: wrap the joined summary items, or return `""` when there are
none. -/
def generate_summary_section (data : Record) : String :=
  let items := summary_items data
  if items.isEmpty then ""
  else
    "\n        <div class=\"summary\">\n            <h3>📊 System Overview</h3>\n            <div class=\"summary-grid\">\n                " ++
      String.join items ++
      "\n            </div>\n        </div>"

/-- Lines 175–184, the `section_icons` dictionary. -/
def section_icons : List (String × String) :=
  [("System", "🖥️"), ("Network", "🌐"), ("CPU", "⚡"), ("Memory", "🧠"),
   ("Disk", "💾"), ("Graphics", "🎮"), ("Software", "📦"), ("Services", "⚙️")]

/-- Lines 187–195: the opening part of one section, with
`section_icons.get(category, '📋')` resolved. -/
def section_open (category : String) : String :=
  "\n        <div class=\"section\">\n            <div class=\"section-header\" onclick=\"toggleSection(this)\">\n                <span>" ++
    ((section_icons.lookup category).getD "📋") ++ " " ++ category ++
    " Information</span>\n                <span class=\"toggle-icon\">▼</span>\n            </div>\n            <div class=\"section-content\">\n        "

/-- Lines 205–210: one property row. -/
def property_html (category key : String) (value : Value) : String :=
  "\n                <div class=\"property\">\n                    <div class=\"property-name\">" ++
    clean_key key ++
    ":</div>\n                    <div class=\"property-value\">" ++
    format_property_value value category key ++
    "</div>\n                </div>\n            "

/-- Lines 212–215: the closing part of one section. -/
def section_close : String := "\n            </div>\n        </div>\n        "

/-- Lines 188–215: the full HTML of one category's section. -/
def renderSection (category : String) (properties : PropMap) : String :=
  section_open category ++
    String.join (properties.map (fun p => property_html category p.1 p.2)) ++
    section_close

/-- The `sections_html` list of `generate_sections` (lines 170–217): one
rendered section per top-level category, in record iteration order. -/
def sections_list (data : Record) : List String :=
  data.map (fun cp => renderSection cp.1 cp.2)

/-- Line 218: `''.join(sections_html)`. -/
def generate_sections (data : Record) : String := String.join (sections_list data)

/-- Lines 220–531, `generate_html_template`: the static pieces `tpl1`, `tpl2a`, `tpl2b`, `tpl3`–`tpl6`
of the f-string template, split at its five interpolation sites (and, for
proof convenience, additionally at the `</style>` tag)
(`{computer_name}` twice, `{timestamp}`, `{generate_summary_section(data)}`,
`{generate_sections(data)}`).  Literal braces and apostrophes of the CSS/JS are
written as `\x7b`, `\x7d`, `\x27` escapes. -/
def tpl1 : String :=
  "<!DOCTYPE html>\n<html lang=\"en\">\n<head>\n    <meta charset=\"UTF-8\">\n    <meta name=\"viewport\" content=\"width=device-width, initial-scale=1.0\">\n    <title>System Report - "

def tpl2a : String :=
  "</title>\n    <style>\n        * \x7b\n            margin: 0;\n            padding: 0;\n            box-sizing: border-box;\n        \x7d\n        \n        body \x7b\n            font-family: \x27Segoe UI\x27, Tahoma, Geneva, Verdana, sans-serif;\n            line-height: 1.6;\n            color: #333;\n            background: linear-gradient(135deg, #667eea 0%, #764ba2 100%);\n            min-height: 100vh;\n            padding: 20px;\n        \x7d\n        \n        .container \x7b\n            max-width: 1200px;\n            margin: 0 auto;\n            background: #ffffff;\n            border-radius: 15px;\n            box-shadow: 0 20px 40px rgba(0,0,0,0.1);\n            overflow: hidden;\n        \x7d\n        \n        .header \x7b\n            background: linear-gradient(135deg, #2c3e50 0%, #34495e 100%);\n            color: white;\n            padding: 40px 30px;\n            text-align: center;\n        \x7d\n        \n        .header h1 \x7b\n            font-size: 2.5em;\n            margin-bottom: 10px;\n            font-weight: 300;\n        \x7d\n        \n        .header .subtitle \x7b\n            font-size: 1.1em;\n            opacity: 0.9;\n            margin-bottom: 20px;\n        \x7d\n        \n        .header .timestamp \x7b\n            background: rgba(255,255,255,0.1);\n            padding: 8px 16px;\n            border-radius: 20px;\n            display: inline-block;\n            font-size: 0.9em;\n        \x7d\n        \n        .content \x7b\n            padding: 30px;\n        \x7d\n        \n        .section \x7b\n            margin-bottom: 25px;\n            border-radius: 10px;\n            overflow: hidden;\n            box-shadow: 0 4px 6px rgba(0,0,0,0.05);\n            border: 1px solid #e1e8ed;\n        \x7d\n        \n        .section-header \x7b\n            background: linear-gradient(135deg, #3498db 0%, #2980b9 100%);\n            color: white;\n            padding: 20px 25px;\n            cursor: pointer;\n            font-size: 1.2em;\n            font-weight: 600;\n            display: flex;\n            justify-content: space-between;\n            align-items: center;\n            transition: all 0.3s ease;\n        \x7d\n        \n        .section-header:hover \x7b\n            background: linear-gradient(135deg, #2980b9 0%, #3498db 100%);\n            transform: translateY(-1px);\n        \x7d\n        \n        .section-header.active \x7b\n            background: linear-gradient(135deg, #27ae60 0%, #2ecc71 100%);\n        \x7d\n        \n        .toggle-icon \x7b\n            font-size: 1.2em;\n            transition: transform 0.3s ease;\n        \x7d\n        \n        .toggle-icon.rotated \x7b\n            transform: rotate(180deg);\n        \x7d\n        \n        .section-content \x7b\n            padding: 0;\n            max-height: 0;\n            overflow: hidden;\n            transition: all 0.4s ease;\n            background: #f8f9fa;\n        \x7d\n        \n        .section-content.expanded \x7b\n            padding: 25px;\n            max-height: 2000px;\n        \x7d\n        \n        .property \x7b\n            display: flex;\n            margin-bottom: 15px;\n            padding: 12px 16px;\n            background: white;\n            border-radius: 8px;\n            border-left: 4px solid #3498db;\n            transition: all 0.2s ease;\n        \x7d\n        \n        .property:hover \x7b\n            box-shadow: 0 2px 8px rgba(0,0,0,0.1);\n            transform: translateX(2px);\n        \x7d\n        \n        .property-name \x7b\n            font-weight: 600;\n            min-width: 200px;\n            color: #2c3e50;\n            margin-right: 20px;\n        \x7d\n        \n        .property-value \x7b\n            color: #34495e;\n            flex: 1;\n            word-break: break-word;\n        \x7d\n        \n        .status-running \x7b\n            color: #27ae60;\n            font-weight: bold;\n            padding: 4px 8px;\n            background: #d5f4e6;\n            border-radius: 12px;\n            font-size: 0.9em;\n        \x7d\n        \n        .status-stopped \x7b\n            color: #e74c3c;\n            font-weight: bold;\n            padding: 4px 8px;\n            background: #fdeaea;\n            border-radius: 12px;\n            font-size: 0.9em;\n        \x7d\n        \n        .summary \x7b\n            background: linear-gradient(135deg, #f39c12 0%, #e67e22 100%);\n            color: white;\n            padding: 20px;\n            margin-bottom: 30px;\n            border-radius: 10px;\n            text-align: center;\n        \x7d\n        \n        .summary-grid \x7b\n            display: grid;\n            grid-template-columns: repeat(auto-fit, minmax(200px, 1fr));\n            gap: 20px;\n            margin-top: 15px;\n        \x7d\n        \n        .summary-item \x7b\n            background: rgba(255,255,255,0.1);\n            padding: 15px;\n            border-radius: 8px;\n        \x7d\n        \n        .summary-item h4 \x7b\n            margin-bottom: 5px;\n            font-size: 0.9em;\n            opacity: 0.9;\n        \x7d\n        \n        .summary-item .value \x7b\n            font-size: 1.2em;\n            font-weight: bold;\n        \x7d\n        \n        .footer \x7b\n            text-align: center;\n            padding: 30px;\n            background: #f8f9fa;\n            color: #7f8c8d;\n            border-top: 1px solid #e1e8ed;\n        \x7d\n        \n        .expand-all \x7b\n            background: #3498db;\n            color: white;\n            border: none;\n            padding: 12px 24px;\n            border-radius: 25px;\n            cursor: pointer;\n            font-size: 1em;\n            margin-bottom: 20px;\n            transition: all 0.3s ease;\n        \x7d\n        \n        .expand-all:hover \x7b\n            background: #2980b9;\n            transform: translateY(-2px);\n            box-shadow: 0 4px 8px rgba(0,0,0,0.2);\n        \x7d\n        \n        @media (max-width: 768px) \x7b\n            .property \x7b\n                flex-direction: column;\n            \x7d\n            \n            .property-name \x7b\n                min-width: auto;\n                margin-bottom: 8px;\n                margin-right: 0;\n            \x7d\n            \n            .header h1 \x7b\n                font-size: 2em;\n            \x7d\n            \n            .content \x7b\n                padding: 20px;\n            \x7d\n        \x7d\n    "

def tpl2b : String :=
  "</style>\n</head>\n<body>\n    <div class=\"container\">\n        <div class=\"header\">\n            <h1>🖥️ System Information Report</h1>\n            <p class=\"subtitle\">Computer: <strong>"

def tpl3 : String :=
  "</strong></p>\n            <div class=\"timestamp\">Generated: "

def tpl4 : String :=
  "</div>\n        </div>\n        \n        <div class=\"content\">\n            <button class=\"expand-all\" onclick=\"toggleAllSections()\">📂 Expand All Sections</button>\n            \n            "

def tpl5 : String :=
  "\n            \n            "

def tpl6 : String :=
  "\n        </div>\n        \n        <div class=\"footer\">\n            <p>Report generated by PowerShell System Information Script</p>\n            <p>Converted to HTML by Python Report Converter</p>\n        </div>\n    </div>\n    \n    <script>\n        let allExpanded = false;\n        \n        function toggleSection(header) \x7b\n            const content = header.nextElementSibling;\n            const icon = header.querySelector(\x27.toggle-icon\x27);\n            \n            header.classList.toggle(\x27active\x27);\n            content.classList.toggle(\x27expanded\x27);\n            icon.classList.toggle(\x27rotated\x27);\n        \x7d\n        \n        function toggleAllSections() \x7b\n            const headers = document.querySelectorAll(\x27.section-header\x27);\n            const button = document.querySelector(\x27.expand-all\x27);\n            \n            headers.forEach(header => \x7b\n                const content = header.nextElementSibling;\n                const icon = header.querySelector(\x27.toggle-icon\x27);\n                \n                if (!allExpanded) \x7b\n                    header.classList.add(\x27active\x27);\n                    content.classList.add(\x27expanded\x27);\n                    icon.classList.add(\x27rotated\x27);\n                \x7d else \x7b\n                    header.classList.remove(\x27active\x27);\n                    content.classList.remove(\x27expanded\x27);\n                    icon.classList.remove(\x27rotated\x27);\n                \x7d\n            \x7d);\n            \n            allExpanded = !allExpanded;\n            button.textContent = allExpanded ? \x27📁 Collapse All Sections\x27 : \x27📂 Expand All Sections\x27;\n        \x7d\n        \n        // Auto-expand System section\n        document.addEventListener(\x27DOMContentLoaded\x27, function() \x7b\n            const firstSection = document.querySelector(\x27.section-header\x27);\n            if (firstSection) \x7b\n                toggleSection(firstSection);\n            \x7d\n        \x7d);\n    </script>\n</body>\n</html>"

/-- Lines 220–531: the assembled document. -/
def generate_html_template (data : Record) (computer_name timestamp : String) : String :=
  tpl1 ++ computer_name ++ tpl2a ++ tpl2b ++ computer_name ++ tpl3 ++ timestamp ++ tpl4 ++
    generate_summary_section data ++ tpl5 ++ generate_sections data ++ tpl6

/-- Lines 540–546 of `convert_json_to_html`: `computer_name` starts as
`"Unknown Computer"` and is replaced by `data['System']['ComputerName']` when
that path exists; the template then interpolates `str` of it. -/
def display_name (data : Record) : String :=
  match data.lookup "System" with
  | some sys =>
    match sys.lookup "ComputerName" with
    | some v => pyStr v
    | none => "Unknown Computer"
  | none => "Unknown Computer"

/-- Lines 533–558, the pure part of `convert_json_to_html`: the document string
produced for an already-decoded record and a timestamp. -/
def convert_json_to_html (data : Record) (timestamp : String) : String :=
  generate_html_template data (display_name data) timestamp

/-- `needle` is a prefix of `hay` (boolean, for concrete evaluation). -/
def startsWithL : List Char → List Char → Bool
  | [], _ => true
  | _ :: _, [] => false
  | a :: as, b :: bs => a == b && startsWithL as bs

/-- `needle` occurs as a contiguous substring of the second list. -/
def containsL (needle : List Char) : List Char → Bool
  | [] => startsWithL needle []
  | c :: cs => startsWithL needle (c :: cs) || containsL needle cs

/-- Substring occurrence on strings. -/
def containsS (needle hay : String) : Bool := containsL needle.data hay.data

/-- The record of end-to-end scenario 2, `{"Services": {"Spooler": "Running", "Fax": "Stopped"}}`. -/
def svcRecord : Record :=
  [("Services", [("Spooler", Value.str "Running"), ("Fax", Value.str "Stopped")])]

/-- A record whose `CPU.Processor1` value is a number, so that
`data['CPU']['Processor1'].split('(')` raises `AttributeError` inside the
summary `try` block before the `Services` probe runs. -/
def cpuBadRecord : Record :=
  [("CPU", [("Processor1", Value.int 5)]), ("Services", [("Spooler", Value.str "Running")])]

/-- A record missing all five probed summary paths. -/
def noProbeRecord : Record := [("Disk", [("C:", Value.str "100GB")])]

/-- A record whose summary values contain raw HTML metacharacters. -/
def rawRecord : Record :=
  [("System", [("ComputerName", Value.str "P<C>&"), ("OSVersion", Value.str "O<S>&")]),
   ("Memory", [("TotalRAM", Value.str "R<A>M&")]),
   ("CPU", [("Processor1", Value.str "C<P>U& (3GHz)")]),
   ("Services", [("Svc", Value.str "B<ad>&")])]

/-- The record of end-to-end scenario 1, `{"System": {"ComputerName": "PC1"}}`. -/
def sysRecord : Record := [("System", [("ComputerName", Value.str "PC1")])]

/-! ## Helper lemmas -/

theorem replaceChar_append (old : Char) (new l₁ l₂ : List Char) :
    replaceChar old new (l₁ ++ l₂) = replaceChar old new l₁ ++ replaceChar old new l₂ := by
  induction l₁ with
  | nil => rfl
  | cons c cs ih => simp [replaceChar, ih]

theorem escape_char (c : Char) :
    replaceChar '>' "&gt;".data (replaceChar '<' "&lt;".data
      (if c = '&' then "&amp;".data else [c])) = escChar c := by
  by_cases h1 : c = '&'
  · subst h1; decide
  · by_cases h2 : c = '<'
    · subst h2; simp [escChar]; decide
    · by_cases h3 : c = '>'
      · subst h3; simp [escChar]; decide
      · simp [replaceChar, escChar, h1, h2, h3]

theorem escapeHtml_eq_escapeOnce (s : String) : escapeHtml s = escapeOnce s := by
  unfold escapeHtml escapeOnce
  congr 1
  induction s.data with
  | nil => rfl
  | cons c l ih =>
    simp only [replaceChar, replaceChar_append, List.map_cons, List.flatten_cons]
    rw [escape_char, ih]

theorem clean_char (c : Char) :
    replaceChar '_' [' '] (replaceChar '5' [] (replaceChar '4' [] (replaceChar '3' []
      (replaceChar '2' [] (replaceChar '1' [] [c]))))) =
    if c == '1' || c == '2' || c == '3' || c == '4' || c == '5' then []
    else [if c = '_' then ' ' else c] := by
  by_cases h1 : c = '1'
  · subst h1; decide
  · by_cases h2 : c = '2'
    · subst h2; decide
    · by_cases h3 : c = '3'
      · subst h3; decide
      · by_cases h4 : c = '4'
        · subst h4; decide
        · by_cases h5 : c = '5'
          · subst h5; decide
          · have e1 : (c == '1') = false := beq_eq_false_iff_ne.mpr h1
            have e2 : (c == '2') = false := beq_eq_false_iff_ne.mpr h2
            have e3 : (c == '3') = false := beq_eq_false_iff_ne.mpr h3
            have e4 : (c == '4') = false := beq_eq_false_iff_ne.mpr h4
            have e5 : (c == '5') = false := beq_eq_false_iff_ne.mpr h5
            by_cases h6 : c = '_' <;>
              simp [replaceChar, e1, e2, e3, e4, e5, h1, h2, h3, h4, h5, h6]

theorem clean_chain (l : List Char) :
    replaceChar '_' [' '] (replaceChar '5' [] (replaceChar '4' [] (replaceChar '3' []
      (replaceChar '2' [] (replaceChar '1' [] l))))) =
    (l.filter (fun c => !(c == '1' || c == '2' || c == '3' || c == '4' || c == '5'))).map
      (fun c => if c = '_' then ' ' else c) := by
  induction l with
  | nil => rfl
  | cons c l ih =>
    rw [show (c :: l) = [c] ++ l from rfl]
    simp only [replaceChar_append]
    rw [clean_char c, ih, List.singleton_append, List.filter_cons]
    cases hc : (c == '1' || c == '2' || c == '3' || c == '4' || c == '5') <;> simp

theorem clean_key_eq (key : String) : clean_key key = clean_key_spec key := by
  unfold clean_key clean_key_spec
  rw [clean_chain]

theorem pyStripL_eq_rdropWhile (l : List Char) :
    pyStripL l = List.rdropWhile pyIsSpace (l.dropWhile pyIsSpace) := rfl

theorem head?_dropWhile_false (p : Char → Bool) (l : List Char) :
    ∀ c, (l.dropWhile p).head? = some c → p c = false := by
  induction l with
  | nil => intro c h; exact Option.noConfusion h
  | cons a as ih =>
    intro c h
    by_cases hp : p a
    · rw [List.dropWhile_cons_of_pos hp] at h
      exact ih c h
    · rw [List.dropWhile_cons_of_neg hp] at h
      cases h
      exact Bool.eq_false_iff.mpr hp

theorem head?_eq_of_pre {α : Type} {x y : List α} (h : x <+: y) (hx : x ≠ []) :
    x.head? = y.head? := by
  obtain ⟨t, rfl⟩ := h
  cases x with
  | nil => exact absurd rfl hx
  | cons a as => rfl

theorem dropWhile_eq_self_of_head? (p : Char → Bool) (l : List Char)
    (h : ∀ c, l.head? = some c → p c = false) : l.dropWhile p = l := by
  cases l with
  | nil => rfl
  | cons a as => exact List.dropWhile_cons_of_neg (by simp [h a rfl])

theorem dropWhile_pyStripL (l : List Char) :
    List.dropWhile pyIsSpace (pyStripL l) = pyStripL l := by
  apply dropWhile_eq_self_of_head?
  intro c hc
  by_cases hnil : pyStripL l = []
  · rw [hnil] at hc
    exact Option.noConfusion hc
  · have hpre := List.rdropWhile_prefix pyIsSpace (l.dropWhile pyIsSpace)
    rw [pyStripL_eq_rdropWhile] at hc hnil
    rw [head?_eq_of_pre hpre hnil] at hc
    exact head?_dropWhile_false pyIsSpace l c hc

theorem pyStripL_idem (l : List Char) : pyStripL (pyStripL l) = pyStripL l := by
  conv_lhs => rw [pyStripL_eq_rdropWhile (pyStripL l)]
  rw [dropWhile_pyStripL, pyStripL_eq_rdropWhile l, List.rdropWhile_idempotent]

theorem mem_pyStripL {c : Char} {l : List Char} (h : c ∈ pyStripL l) : c ∈ l := by
  rw [pyStripL_eq_rdropWhile] at h
  exact (List.dropWhile_suffix pyIsSpace).subset
    ((List.rdropWhile_prefix pyIsSpace (l.dropWhile pyIsSpace)).subset h)

theorem replaceChar_eq_self {old : Char} {new l : List Char}
    (h : ∀ c ∈ l, c ≠ old) : replaceChar old new l = l := by
  induction l with
  | nil => rfl
  | cons c cs ih =>
    have hc : c ≠ old := h c (List.mem_cons_self c cs)
    simp [replaceChar, hc, ih (fun d hd => h d (List.mem_cons_of_mem c hd))]

theorem clean_key_of_plain (k : String)
    (h : ∀ c ∈ k.data, c.isDigit = false ∧ c ≠ '_') : clean_key k = pyStrip k := by
  have hd : ∀ a : Char, a.isDigit = true → ∀ c ∈ k.data, c ≠ a := by
    intro a ha c hc he
    have hcd := (h c hc).1
    rw [he, ha] at hcd
    exact Bool.noConfusion hcd
  unfold clean_key
  rw [replaceChar_eq_self (hd '1' (by decide)), replaceChar_eq_self (hd '2' (by decide)),
    replaceChar_eq_self (hd '3' (by decide)), replaceChar_eq_self (hd '4' (by decide)),
    replaceChar_eq_self (hd '5' (by decide)),
    replaceChar_eq_self (fun c hc => (h c hc).2)]

/-! ## Claims -/

/-- C1: for a property in a category other than `"Services"` with a string
value, the rendered value is the input with `&`, `<`, `>` escaped exactly once
(`&` replaced first, so an escaped `&` is never re-escaped — the sequential
replacements coincide with the single-pass escape `escapeOnce`); the input
`"A & B < C"` renders as `"A &amp; B &lt; C"`; non-string values are rendered
by their default textual representation `pyStr` with no escaping. -/
theorem c1_html_escaping (category key : String) (h : category ≠ "Services") :
    (∀ s, format_property_value (Value.str s) category key = escapeOnce s) ∧
    format_property_value (Value.str "A & B < C") category key = "A &amp; B &lt; C" ∧
    (∀ n : Int, format_property_value (Value.int n) category key = toString n) ∧
    (∀ b : Bool, format_property_value (Value.bool b) category key =
      (if b then "True" else "False")) := by
  refine ⟨fun s => ?_, ?_, fun n => ?_, fun b => ?_⟩
  · rw [format_property_value.eq_def, if_neg h]
    exact escapeHtml_eq_escapeOnce s
  · rw [format_property_value.eq_def, if_neg h]
    decide
  · rw [format_property_value.eq_def, if_neg h]
    rfl
  · rw [format_property_value.eq_def, if_neg h]
    rfl

/-- Witness for C1 at the concrete category `"CPU"`. -/
theorem c1_html_escaping_witness :
    format_property_value (Value.str "A & B < C") "CPU" "k" = "A &amp; B &lt; C" :=
  (c1_html_escaping "CPU" "k" (by decide)).2.1

/-- C2: in a category named exactly `"Services"` every value renders as a
status badge, positive (checkmark) iff the value is the string `"Running"`,
negative (cross) otherwise, with the raw value text in both cases; in any
other category the badge rule is never applied — the value renders through the
plain escape/`str` path instead. -/
theorem c2_services_badge :
    (∀ (key : String) (v : Value), format_property_value v "Services" key =
        if v = Value.str "Running"
        then "<span class=\"status-running\">✅ " ++ pyStr v ++ "</span>"
        else "<span class=\"status-stopped\">❌ " ++ pyStr v ++ "</span>") ∧
    (∀ (category key : String) (v : Value), category ≠ "Services" →
        format_property_value v category key =
          (match v with
           | Value.str s => escapeHtml s
           | v => pyStr v)) := by
  constructor
  · intro key v
    rw [format_property_value.eq_def, if_pos rfl]
  · intro category key v h
    rw [format_property_value.eq_def, if_neg h]

/-- Witness for C2 at concrete inputs. -/
theorem c2_services_badge_witness :
    format_property_value (Value.str "Running") "Services" "Spooler" =
      "<span class=\"status-running\">✅ Running</span>" ∧
    format_property_value (Value.str "Stopped") "Services" "Fax" =
      "<span class=\"status-stopped\">❌ Stopped</span>" ∧
    format_property_value (Value.str "Running") "Software" "Spooler" = "Running" :=
  ⟨(c2_services_badge.1 "Spooler" (Value.str "Running")).trans (by decide),
   (c2_services_badge.1 "Fax" (Value.str "Stopped")).trans (by decide),
   (c2_services_badge.2 "Software" "Spooler" (Value.str "Running") (by decide)).trans
     (by decide)⟩

/-- C3: the list of rendered sections has exactly one entry per top-level
category, in the record's own order (the i-th section is the rendering of the
i-th category); rendering an empty record yields zero sections, and a category
with an empty property mapping still renders a (property-free) section. -/
theorem c3_sections (data : Record) :
    (sections_list data).length = data.length ∧
    (∀ i, (sections_list data).get? i =
      (data.get? i).map (fun cp => renderSection cp.1 cp.2)) ∧
    generate_sections ([] : Record) = "" ∧
    (∀ c, renderSection c [] = section_open c ++ section_close) := by
  refine ⟨?_, fun i => ?_, rfl, fun c => ?_⟩
  · simp [sections_list]
  · simp [sections_list, List.get?_map]
  · show section_open c ++ String.join [] ++ section_close = _
    rw [show String.join [] = "" from rfl, String.append_empty]

/-- C4: the display key equals the raw key with every occurrence of `'1'`–`'5'`
removed (digits `'0'`, `'6'`–`'9'` kept), underscores replaced by spaces, and
surrounding whitespace trimmed; `"Processor1"` becomes `"Processor"` and
`"Core15Threads"` becomes `"CoreThreads"`. -/
theorem c4_display_key :
    (∀ key, clean_key key = clean_key_spec key) ∧
    clean_key "Processor1" = "Processor" ∧
    clean_key "Core15Threads" = "CoreThreads" ∧
    clean_key "a0_67 89" = "a0 67 89" :=
  ⟨clean_key_eq, by decide, by decide, by decide⟩

/-- C5 counterexample: on the key `"Core15Threads"` stripping trailing digits
and underscores leaves the key unchanged, while the code's derivation removes
the embedded `"15"`, so the display key is not the trailing-strip of the key. -/
theorem c5_counterexample :
    strip_trailing_spec "Core15Threads" = "Core15Threads" ∧
    clean_key "Core15Threads" = "CoreThreads" ∧
    clean_key "Core15Threads" ≠ strip_trailing_spec "Core15Threads" :=
  ⟨by decide, by decide, by decide⟩

/-- C5 (amended): the display key is obtained by removing every occurrence of
`'1'`–`'5'` anywhere in the key (not only trailing), replacing each underscore
with a space (not stripping it), and trimming surrounding whitespace; e.g. the
non-trailing `'3'` of `"Ab3cd"` is removed. -/
theorem c5_amended_display_key :
    (∀ key, clean_key key = clean_key_spec key) ∧ clean_key "Ab3cd" = "Abcd" :=
  ⟨clean_key_eq, by decide⟩

/-- C8: display-key derivation is idempotent on keys with no digit characters
and no underscores. -/
theorem c8_idempotent (k : String)
    (h : ∀ c ∈ k.data, c.isDigit = false ∧ c ≠ '_') :
    clean_key (clean_key k) = clean_key k := by
  have h2 : ∀ c ∈ (pyStrip k).data, c.isDigit = false ∧ c ≠ '_' :=
    fun c hc => h c (mem_pyStripL hc)
  rw [clean_key_of_plain k h, clean_key_of_plain _ h2]
  exact congrArg String.mk (pyStripL_idem k.data)

/-- Witness for C8 at the concrete key `"Hello World"`. -/
theorem c8_idempotent_witness :
    clean_key (clean_key "Hello World") = clean_key "Hello World" :=
  c8_idempotent "Hello World" (by decide)

/-- C6: on a record where all five probed summary paths are absent, summary
extraction yields the empty item list (it cannot raise — the embedding is
total on this hypothesis space) and the summary block is omitted entirely
(`generate_summary_section` returns the empty string). -/
theorem c6_empty_summary (data : Record)
    (h1 : pathLookup data "System" "ComputerName" = none)
    (h2 : pathLookup data "System" "OSVersion" = none)
    (h3 : pathLookup data "Memory" "TotalRAM" = none)
    (h4 : pathLookup data "CPU" "Processor1" = none)
    (h5 : data.lookup "Services" = none) :
    summary_items data = [] ∧ generate_summary_section data = "" := by
  have hmain : summary_items data = [] := by
    unfold summary_items
    rcases hS : data.lookup "System" with _ | sys
    · rcases hM : data.lookup "Memory" with _ | mem
      · rcases hC : data.lookup "CPU" with _ | cpu
        · simp [h5]
        · have hp : cpu.lookup "Processor1" = none := by
            rw [pathLookup, hC] at h4; simpa using h4
          simp [h5, hp]
      · have hr : mem.lookup "TotalRAM" = none := by
          rw [pathLookup, hM] at h3; simpa using h3
        rcases hC : data.lookup "CPU" with _ | cpu
        · simp [h5, hr]
        · have hp : cpu.lookup "Processor1" = none := by
            rw [pathLookup, hC] at h4; simpa using h4
          simp [h5, hr, hp]
    · have hcn : sys.lookup "ComputerName" = none := by
        rw [pathLookup, hS] at h1; simpa using h1
      have hos : sys.lookup "OSVersion" = none := by
        rw [pathLookup, hS] at h2; simpa using h2
      rcases hM : data.lookup "Memory" with _ | mem
      · rcases hC : data.lookup "CPU" with _ | cpu
        · simp [h5, hcn, hos]
        · have hp : cpu.lookup "Processor1" = none := by
            rw [pathLookup, hC] at h4; simpa using h4
          simp [h5, hcn, hos, hp]
      · have hr : mem.lookup "TotalRAM" = none := by
          rw [pathLookup, hM] at h3; simpa using h3
        rcases hC : data.lookup "CPU" with _ | cpu
        · simp [h5, hcn, hos, hr]
        · have hp : cpu.lookup "Processor1" = none := by
            rw [pathLookup, hC] at h4; simpa using h4
          simp [h5, hcn, hos, hr, hp]
  exact ⟨hmain, by simp [generate_summary_section, hmain]⟩

/-- Witness for C6 at a concrete record with none of the probed paths. -/
theorem c6_empty_summary_witness :
    summary_items noProbeRecord = [] ∧ generate_summary_section noProbeRecord = "" :=
  c6_empty_summary noProbeRecord (by decide) (by decide) (by decide) (by decide) (by decide)

/-- C7 counterexample: `cpuBadRecord` contains a top-level `"Services"`
category, yet its summary is empty — the numeric `CPU.Processor1` value makes
`.split('(')` raise before the `Services` probe, and the bare `except`
swallows the error, so no `"<running>/<total> Running"` item is produced. -/
theorem c7_counterexample :
    (cpuBadRecord.lookup "Services").isSome = true ∧
    summary_items cpuBadRecord = [] ∧
    generate_summary_section cpuBadRecord = "" :=
  ⟨by decide, by decide, by decide⟩

/-- C7 (amended): for every record containing a top-level `"Services"`
category, provided the `CPU.Processor1` value — if present — is a string (so
no probe before the `Services` one raises), the summary contains the item
`"<running>/<total> Running"` counting the properties whose value is the
string `"Running"` against the category's total. -/
theorem c7_services_summary (data : Record) (svcs : PropMap)
    (hs : data.lookup "Services" = some svcs)
    (hcpu : ∀ v, pathLookup data "CPU" "Processor1" = some v → ∃ s, v = Value.str s) :
    summaryItem "Services Status"
      (toString (svcs.countP (fun p => decide (p.2 = Value.str "Running"))) ++ "/" ++
        toString svcs.length ++ " Running") ∈ summary_items data := by
  unfold summary_items
  rcases hC : data.lookup "CPU" with _ | cpu
  · simp [hs, hC]
  · rcases hP : cpu.lookup "Processor1" with _ | v
    · simp [hs, hC, hP]
    · obtain ⟨s, rfl⟩ := hcpu v (by rw [pathLookup, hC]; simpa using hP)
      simp [hs, hC, hP]

/-- Witness for C7 (amended) at end-to-end scenario 2's record, producing the
item `"1/2 Running"`. -/
theorem c7_services_summary_witness :
    summaryItem "Services Status" "1/2 Running" ∈ summary_items svcRecord := by
  have h := c7_services_summary svcRecord
      [("Spooler", Value.str "Running"), ("Fax", Value.str "Stopped")] (by decide)
      (fun v hv => by
        rw [show pathLookup svcRecord "CPU" "Processor1" = none from by decide] at hv
        exact Option.noConfusion hv)
  exact h

/-- C9: values interpolated outside the non-`"Services"` string path are not
HTML-escaped: a `System.ComputerName` value reaches the summary verbatim
through `pyStr` (general conjunct), and on concrete inputs containing `&`,
`<`, `>` the raw metacharacters appear unescaped in the summary, in the
section header (category name), in the display key and in the `"Services"`
badge text, with no `&lt;` entity introduced for them. -/
theorem c9_verbatim :
    (∀ (data : Record) (sys : PropMap) (v : Value),
        data.lookup "System" = some sys → sys.lookup "ComputerName" = some v →
        summaryItem "Computer" (pyStr v) ∈ summary_items data) ∧
    containsS "P<C>&" (generate_summary_section rawRecord) = true ∧
    containsS "P&lt;" (generate_summary_section rawRecord) = false ∧
    containsS "C<P>U&" (generate_summary_section rawRecord) = true ∧
    containsS "Cat<eg>ory& Information"
      (renderSection "Cat<eg>ory&" [("K<e>y&_x", Value.str "normal")]) = true ∧
    containsS "K<e>y& x:"
      (renderSection "Cat<eg>ory&" [("K<e>y&_x", Value.str "normal")]) = true ∧
    containsS "❌ B<ad>&"
      (format_property_value (Value.str "B<ad>&") "Services" "Svc") = true := by
  refine ⟨?_, by rfl, by rfl, by rfl, by rfl, by rfl, by rfl⟩
  intro data sys v hS hCN
  unfold summary_items
  rcases hC : data.lookup "CPU" with _ | cpu
  · simp [hS, hCN, hC]
  · rcases hP : cpu.lookup "Processor1" with _ | w
    · simp [hS, hCN, hC, hP]
    · cases w <;> simp [hS, hCN, hC, hP]

/-- Witness for C9's general conjunct at `rawRecord`: the raw metacharacter
value reaches the summary items unchanged. -/
theorem c9_verbatim_witness :
    summaryItem "Computer" "P<C>&" ∈ summary_items rawRecord :=
  c9_verbatim.1 rawRecord
    [("ComputerName", Value.str "P<C>&"), ("OSVersion", Value.str "O<S>&")]
    (Value.str "P<C>&") rfl rfl

/-- C10: the display name is `System.ComputerName`'s value when that path
exists and the literal `"Unknown Computer"` otherwise, and the assembled
document embeds it (twice: title and header), as the decomposition into the
static template pieces and the concrete title/header substrings show. -/
theorem c10_display (data : Record) (ts : String) :
    (pathLookup data "System" "ComputerName" = none →
      display_name data = "Unknown Computer") ∧
    (∀ v, pathLookup data "System" "ComputerName" = some v →
      display_name data = pyStr v) ∧
    convert_json_to_html data ts =
      tpl1 ++ display_name data ++ tpl2a ++ tpl2b ++ display_name data ++ tpl3 ++ ts ++
        tpl4 ++ generate_summary_section data ++ tpl5 ++ generate_sections data ++ tpl6 ∧
    tpl1 =
      "<!DOCTYPE html>\n<html lang=\"en\">\n<head>\n    <meta charset=\"UTF-8\">\n    <meta name=\"viewport\" content=\"width=device-width, initial-scale=1.0\">\n    " ++
        "<title>System Report - " ∧
    startsWithL "</title>".data tpl2a.data = true ∧
    tpl2b =
      "</style>\n</head>\n<body>\n    <div class=\"container\">\n        <div class=\"header\">\n            <h1>🖥️ System Information Report</h1>\n            <p class=\"subtitle\">" ++
        "Computer: <strong>" ∧
    startsWithL "</strong></p>".data tpl3.data = true := by
  refine ⟨?_, ?_, rfl, by decide, by rfl, by decide, by rfl⟩
  · intro h
    unfold display_name
    rcases hS : data.lookup "System" with _ | sys
    · rfl
    · rw [pathLookup, hS] at h
      simp only [Option.some_bind] at h
      simp [h]
  · intro v h
    unfold display_name
    rcases hS : data.lookup "System" with _ | sys
    · rw [pathLookup, hS] at h
      exact Option.noConfusion h
    · rw [pathLookup, hS] at h
      simp only [Option.some_bind] at h
      simp [h]

/-- Witness for C10 at a present and an absent `System.ComputerName`. -/
theorem c10_display_witness :
    display_name ([] : Record) = "Unknown Computer" ∧ display_name sysRecord = "PC1" :=
  ⟨(c10_display [] "TS").1 rfl, (c10_display sysRecord "TS").2.1 (Value.str "PC1") rfl⟩

end JsonToHtml
